import Mathlib

/-!
# Anubis-Bot: a shallow embedding of the scoring and alerting pipeline

This file embeds the scoring, tiering, velocity-classification and alerting
logic of `src/modules/anubis_scoring.py` and the ingestion/profile logic of
`src/modules/wallet_scanner.py` as executable Lean definitions, and proves
or refutes the frozen specification claims about them.

Conventions of the embedding:
* Python `float` arithmetic is modelled over `ℚ`; counts are `ℕ`.
* Python dictionaries that may be `None`/empty (falsy) are modelled as
  `Option` of a structure; `d.get(key, default)` on a possibly-missing
  dictionary is `(o.map f).getD default`.
* Python truthiness of an optional numeric value (`None` and `0` are falsy)
  is `qTruthy` below.
* Enum `.value` strings (`"serial_spammer"`, tier and risk names, alert
  levels) are kept as `String`, as in the source.
-/

namespace Anubis

/-- Python truthiness of an optional numeric field: `None` and `0` are falsy,
every other number is truthy. -/
def qTruthy : Option ℚ → Bool
  | none => false
  | some x => x != 0

/-- Row of `anubis_wallet_profiles` restricted to the columns the scoring
functions actually read (`total_launches`, `total_rugs`,
`successful_launches`, `avg_seed_amount`, `success_rate_7d`).
`avg_seed_amount` is nullable in the schema, hence `Option`. -/
structure Profile where
  totalLaunches : ℕ
  totalRugs : ℕ
  successfulLaunches : ℕ
  avgSeedAmount : Option ℚ
  successRate7d : ℚ
deriving DecidableEq

/-- Result dictionary of `_calculate_velocity_metrics`: for fewer than two
launches the code returns only `velocity_type = 'selective'` and
`avg_daily = 0` (so `min_interval` is absent, modelled `none`). -/
structure Velocity where
  velocityType : String
  avgDaily : ℚ
  maxDaily : ℕ
  minInterval : Option ℚ
deriving DecidableEq

/-- Result of `analyze_liquidity_patterns` (a collaborator dictionary; only
`bot_likelihood` is read, with `.get` default 0). An absent/empty dictionary
is modelled as `Option.none` at use sites. -/
structure Liquidity where
  botLikelihood : ℚ
deriving DecidableEq

/-- Result of `analyze_bonding_patterns`: `min_bond_time` and `avg_bond_time`
may be absent, `graduation_rate` is read with `.get` default 0. -/
structure Bonding where
  minBondTime : Option ℚ
  avgBondTime : Option ℚ
  graduationRate : ℚ
deriving DecidableEq

/-- Result dictionary of `_analyze_time_patterns` (an empty dictionary, for a
wallet with no recorded patterns, is `Option.none` at use sites). -/
structure TimePatterns where
  asiaRatio : ℚ
  euRatio : ℚ
  usRatio : ℚ
  weekendRatio : ℚ
  consistency : ℚ
deriving DecidableEq

/-- Result dictionary of `_analyze_network_connections`. -/
structure Network where
  networkSize : ℕ
  sybilScore : ℚ
  farmingSuspected : Bool
deriving DecidableEq

/-- Result dictionary of `_get_recent_performance` (7-day window part). -/
structure Recent where
  launches7d : ℕ
  successes7d : ℕ
deriving DecidableEq

/-- Result of `detect_jito_usage`. -/
structure Jito where
  usesJito : Bool
  sophisticatedTrader : Bool
deriving DecidableEq

/-- Result of `analyze_metadata_quality` (only `metadata_score` is read). -/
structure MetadataQuality where
  metadataScore : ℚ
deriving DecidableEq

/-- Result of `track_platform_migrations`. -/
structure Migrations where
  successfulGraduations : ℕ
  migrationSuccessRate : ℚ
deriving DecidableEq

/-- The `scores` dictionary assembled by `calculate_anubis_score`. -/
structure ComponentScores where
  successScore : ℚ
  scamScore : ℚ
  timePatternScore : ℚ
  velocityScore : ℚ
  networkScore : ℚ
  momentumScore : ℚ
  liquidityScore : ℚ
  bondingScore : ℚ
  sophisticationScore : ℚ
deriving DecidableEq

/-- The first (feature-rich) definition of
`AnubisScoringEngine._calculate_scam_score`
(`src/modules/anubis_scoring.py:271-303`): four parameters, including
liquidity bot-likelihood and bonding-time signals. -/
def calculate_scam_score_rich (profile : Option Profile) (velocity : Velocity)
    (liquidity : Option Liquidity) (bonding : Option Bonding) : ℚ :=
  match profile with
  | none => 50
  | some p =>
    let s₁ : ℚ :=
      if 0 < p.totalLaunches then ((p.totalRugs : ℚ) / (p.totalLaunches : ℚ)) * 30 else 0
    let s₂ : ℚ := if velocity.velocityType = "serial_spammer" then 25 else 0
    let s₃ : ℚ :=
      if qTruthy velocity.minInterval ∧ velocity.minInterval.getD 0 < 10 then 15 else 0
    let botLikelihood : ℚ := (liquidity.map Liquidity.botLikelihood).getD 0
    let s₄ : ℚ := if 7/10 < botLikelihood then 20 else 0
    let minBond : Option ℚ := bonding.bind Bonding.minBondTime
    let s₅ : ℚ := if qTruthy minBond ∧ minBond.getD 0 < 10 then 15 else 0
    let s₆ : ℚ :=
      if qTruthy p.avgSeedAmount ∧ p.avgSeedAmount.getD 0 < 1 then 10 else 0
    min (s₁ + s₂ + s₃ + s₄ + s₅ + s₆) 100

/-- The second (simpler) definition of
`AnubisScoringEngine._calculate_scam_score`
(`src/modules/anubis_scoring.py:558-582`): two parameters, weights 40/30/20/10.
Being the later definition in the class body, it is the one bound on the
class (Python: later `def` of the same name replaces the earlier). -/
def calculate_scam_score_simple (profile : Option Profile) (velocity : Velocity) : ℚ :=
  match profile with
  | none => 50
  | some p =>
    let s₁ : ℚ :=
      if 0 < p.totalLaunches then ((p.totalRugs : ℚ) / (p.totalLaunches : ℚ)) * 40 else 0
    let s₂ : ℚ := if velocity.velocityType = "serial_spammer" then 30 else 0
    let s₃ : ℚ :=
      if qTruthy velocity.minInterval ∧ velocity.minInterval.getD 0 < 10 then 20 else 0
    let s₄ : ℚ :=
      if qTruthy p.avgSeedAmount ∧ p.avgSeedAmount.getD 0 < 1 then 10 else 0
    min (s₁ + s₂ + s₃ + s₄) 100

/-- `AnubisScoringEngine._calculate_success_score`
(`src/modules/anubis_scoring.py:536-556`). -/
def calculate_success_score (profile : Option Profile) : ℚ :=
  match profile with
  | none => 0
  | some p =>
    if p.totalLaunches = 0 then 0
    else
      let successRate : ℚ := (p.successfulLaunches : ℚ) / (p.totalLaunches : ℚ)
      let recentWeight : ℚ := if 0 < p.successRate7d then 6/10 else 3/10
      let historicalWeight : ℚ := 1 - recentWeight
      let score := (successRate * historicalWeight + p.successRate7d * recentWeight) * 100
      if 5 < p.successfulLaunches ∧ 3/10 < successRate then min (score * (12/10)) 100
      else score

/-- `AnubisScoringEngine._calculate_time_pattern_score`
(`src/modules/anubis_scoring.py:584-603`). The session-concentration bonus
tests only `asia_ratio` and `us_ratio`. -/
def calculate_time_pattern_score (patterns : Option TimePatterns) : ℚ :=
  match patterns with
  | none => 50
  | some p =>
    let score : ℚ := 50
      + (if 7/10 < p.consistency then 20 else 0)
      + (if 6/10 < p.asiaRatio ∨ 6/10 < p.usRatio then 15 else 0)
      - (if 6/10 < p.weekendRatio then 10 else 0)
    max 0 (min score 100)

/-- `AnubisScoringEngine._calculate_velocity_score`
(`src/modules/anubis_scoring.py:605-614`): dictionary lookup with default 50. -/
def calculate_velocity_score (velocity : Velocity) : ℚ :=
  if velocity.velocityType = "serial_spammer" then 10
  else if velocity.velocityType = "high_frequency" then 30
  else if velocity.velocityType = "moderate" then 70
  else if velocity.velocityType = "selective" then 90
  else 50

/-- `AnubisScoringEngine._calculate_network_score`
(`src/modules/anubis_scoring.py:616-632`). -/
def calculate_network_score (network : Network) : ℚ :=
  if network.farmingSuspected then 20
  else
    let base : ℚ := 70
      + (if network.networkSize < 3 then 20
         else if 10 < network.networkSize then -30 else 0)
      - network.sybilScore * 50
    max 0 (min base 100)

/-- `AnubisScoringEngine._calculate_momentum_score`
(`src/modules/anubis_scoring.py:634-650`). A zero 7-day launch count is falsy
and short-circuits to 0. -/
def calculate_momentum_score (recent : Recent) : ℚ :=
  if recent.launches7d = 0 then 0
  else
    let recentSuccess : ℚ := (recent.successes7d : ℚ) / (recent.launches7d : ℚ)
    let activityScore : ℚ :=
      if 10 < recent.launches7d then 30
      else if 3 < recent.launches7d then 50
      else 70
    recentSuccess * 70 + activityScore * (3/10)

/-- `AnubisScoringEngine._calculate_composite_score`
(`src/modules/anubis_scoring.py:652-671`), with the weight table of
`AnubisWeights`: success 0.15, rug 0.15, time 0.10, velocity 0.10,
network 0.05, momentum 0.05. -/
def calculate_composite_score (s : ComponentScores) : ℚ :=
  let composite : ℚ :=
    s.successScore * (15/100) + (100 - s.scamScore) * (15/100)
    + s.timePatternScore * (10/100) + s.velocityScore * (10/100)
    + s.networkScore * (5/100) + s.momentumScore * (5/100)
  let totalWeight : ℚ := 15/100 + 15/100 + 10/100 + 10/100 + 5/100 + 5/100
  if 0 < totalWeight then composite / totalWeight else 50

/-- `AnubisScoringEngine._calculate_liquidity_score`
(`src/modules/anubis_scoring.py:305-321`); `none` models the empty (falsy)
dictionary. -/
def calculate_liquidity_score (liquidity : Option Liquidity) : ℚ :=
  match liquidity with
  | none => 50
  | some l =>
    if l.botLikelihood < 3/10 then 80
    else if l.botLikelihood < 5/10 then 60
    else if l.botLikelihood < 7/10 then 40
    else 20

/-- `AnubisScoringEngine._calculate_bonding_score`
(`src/modules/anubis_scoring.py:323-341`); a missing or zero `avg_bond_time`
is falsy and yields the neutral 50. -/
def calculate_bonding_score (bonding : Option Bonding) : ℚ :=
  match bonding with
  | none => 50
  | some b =>
    if ¬ qTruthy b.avgBondTime then 50
    else
      let avgTime := b.avgBondTime.getD 0
      let score : ℚ := 50 + b.graduationRate * 30
        + (if 30 < avgTime ∧ avgTime < 180 then 20
           else if avgTime < 10 then -20 else 0)
      max 0 (min score 100)

/-- `AnubisScoringEngine._calculate_sophistication_score`
(`src/modules/anubis_scoring.py:343-363`). -/
def calculate_sophistication_score (jito : Jito) (metadata : MetadataQuality)
    (migrations : Migrations) : ℚ :=
  let s₁ : ℚ := if jito.sophisticatedTrader then 30 else if jito.usesJito then 15 else 0
  let s₂ : ℚ := metadata.metadataScore * (4/10)
  let s₃ : ℚ :=
    if 0 < migrations.successfulGraduations then
      20 + (if 1/2 < migrations.migrationSuccessRate then 10 else 0)
    else 0
  min (s₁ + s₂ + s₃) 100

/-- The first (feature-rich) definition of
`AnubisScoringEngine._determine_developer_tier`
(`src/modules/anubis_scoring.py:365-377`): ELITE demands a sophistication
signal (Jito usage or more than 2 successful graduations). -/
def determine_developer_tier_rich (anubisScore : ℚ) (profile : Option Profile)
    (jito : Jito) (migrations : Migrations) : String :=
  if 80 < anubisScore ∧ 5 < (profile.map Profile.successfulLaunches).getD 0 ∧
      (jito.usesJito = true ∨ 2 < migrations.successfulGraduations) then "ELITE"
  else if 60 < anubisScore then "PRO"
  else if 40 < anubisScore then "AMATEUR"
  else "SCAMMER"

/-- The second (simpler) definition of
`AnubisScoringEngine._determine_developer_tier`
(`src/modules/anubis_scoring.py:717-726`): no sophistication conjunct. Being
the later definition in the class body, it is the one bound on the class. -/
def determine_developer_tier_simple (anubisScore : ℚ) (profile : Option Profile) : String :=
  if 80 < anubisScore ∧ 5 < (profile.map Profile.successfulLaunches).getD 0 then "ELITE"
  else if 60 < anubisScore then "PRO"
  else if 40 < anubisScore then "AMATEUR"
  else "SCAMMER"

/-- `AnubisScoringEngine._calculate_alert_priority`
(`src/modules/anubis_scoring.py:728-744`). -/
def calculate_alert_priority (anubisScore : ℚ) (s : ComponentScores) : ℤ :=
  if 75 < anubisScore then
    if 70 < s.momentumScore then 1 else 2
  else if 70 < s.scamScore then 9
  else if 40 < anubisScore ∧ anubisScore < 60 then 5
  else 7

/-! ## Velocity metrics (`_calculate_velocity_metrics`, lines 421-466)

A launch inside the 90-day window is modelled by the UTC date it fell on
(an integer day number); the SQL query's window filter has already been
applied to the input list. -/

/-- `daily_counts.values()`: the launch count of each distinct day. -/
def dailyCounts (days : List ℤ) : List ℕ :=
  days.dedup.map fun d => days.count d

/-- `max(daily_counts.values())`. -/
def maxDailyLaunches (days : List ℤ) : ℕ :=
  (dailyCounts days).foldr max 0

/-- `np.mean(list(daily_counts.values()))`. -/
def avgDailyLaunches (days : List ℤ) : ℚ :=
  ((dailyCounts days).sum : ℚ) / ((dailyCounts days).length : ℚ)

/-- The `velocity_type` computed by
`AnubisScoringEngine._calculate_velocity_metrics`
(`src/modules/anubis_scoring.py:421-466`): fewer than 2 launches in the
window short-circuits to `selective`; otherwise the `max_daily`,
`avg_daily` branches in source order. -/
def calculate_velocity_type (days : List ℤ) : String :=
  if days.length < 2 then "selective"
  else if 5 < maxDailyLaunches days then "serial_spammer"
  else if 2 < avgDailyLaunches days then "high_frequency"
  else if 1/2 < avgDailyLaunches days then "moderate"
  else "selective"

/-! ## The class body of `AnubisScoringEngine` and Python method binding

In a Python class body, a later `def` of a name replaces an earlier one:
the class attribute is the last definition. `effectiveArity` models that
binding; `firstCallError` models executing a sequence of `self.<name>(args)`
calls: a name with no binding raises `AttributeError`, a bound name called
with the wrong number of arguments raises `TypeError`, and the first such
failure aborts the call. Arities exclude `self`. -/

/-- A Python runtime error relevant to the pipeline. -/
inductive PyError where
  | attributeError (name : String)
  | typeError (name : String)
deriving DecidableEq

/-- Whether an error is a `TypeError`. -/
def PyError.isTypeError : PyError → Bool
  | .typeError _ => true
  | _ => false

/-- The method definitions of the `AnubisScoringEngine` class body in source
order (`src/modules/anubis_scoring.py:203-762`), each with its parameter
count excluding `self`. `_calculate_scam_score` and
`_determine_developer_tier` each appear twice. -/
def anubisClassBody : List (String × ℕ) :=
  [("calculate_anubis_score", 1),
   ("_calculate_scam_score", 4),
   ("_calculate_liquidity_score", 1),
   ("_calculate_bonding_score", 1),
   ("_calculate_sophistication_score", 3),
   ("_determine_developer_tier", 4),
   ("_get_wallet_profile", 1),
   ("_analyze_time_patterns", 1),
   ("_calculate_velocity_metrics", 1),
   ("_analyze_network_connections", 1),
   ("_get_recent_performance", 1),
   ("_calculate_success_score", 1),
   ("_calculate_scam_score", 2),
   ("_calculate_time_pattern_score", 1),
   ("_calculate_velocity_score", 1),
   ("_calculate_network_score", 1),
   ("_calculate_momentum_score", 1),
   ("_calculate_composite_score", 1),
   ("_calculate_time_consistency", 1),
   ("_calculate_momentum", 2),
   ("_determine_risk_rating", 2),
   ("_determine_developer_tier", 2),
   ("_calculate_alert_priority", 2),
   ("_update_wallet_scores", 2)]

/-- The arity of the method a name is bound to on the finished class:
the LAST definition of that name in the class body, if any. -/
def effectiveArity (body : List (String × ℕ)) (name : String) : Option ℕ :=
  (body.reverse.find? fun d => d.1 == name).map Prod.snd

/-- The `self.<name>(...)` calls made by
`AnubisScoringEngine.calculate_anubis_score`
(`src/modules/anubis_scoring.py:207-269`) in execution order, with the
number of arguments passed (excluding `self`). The five `analyze_*` /
`detect_*` / `track_*` helpers called at lines 222-226 are defined nowhere
in the repository. -/
def anubisScoreCalls : List (String × ℕ) :=
  [("_get_wallet_profile", 1),
   ("_analyze_time_patterns", 1),
   ("_calculate_velocity_metrics", 1),
   ("_analyze_network_connections", 1),
   ("_get_recent_performance", 1),
   ("analyze_liquidity_patterns", 1),
   ("analyze_bonding_patterns", 1),
   ("detect_jito_usage", 1),
   ("analyze_metadata_quality", 1),
   ("track_platform_migrations", 1),
   ("_calculate_success_score", 1),
   ("_calculate_scam_score", 4),
   ("_calculate_time_pattern_score", 1),
   ("_calculate_velocity_score", 1),
   ("_calculate_network_score", 1),
   ("_calculate_momentum_score", 1),
   ("_calculate_liquidity_score", 1),
   ("_calculate_bonding_score", 1),
   ("_calculate_sophistication_score", 3),
   ("_calculate_composite_score", 1),
   ("_determine_risk_rating", 2),
   ("_determine_developer_tier", 4),
   ("_update_wallet_scores", 2),
   ("_calculate_alert_priority", 2)]

/-- The first runtime error raised while executing a call sequence against a
class body, if any: `AttributeError` for an unbound name, `TypeError` for an
arity mismatch. -/
def firstCallError (body : List (String × ℕ)) (calls : List (String × ℕ)) : Option PyError :=
  calls.findSome? fun c =>
    match effectiveArity body c.1 with
    | none => some (.attributeError c.1)
    | some a => if a = c.2 then none else some (.typeError c.1)

/-- The calls of `calculate_anubis_score` whose target method does exist on
the class (what would execute if the five missing collaborators were
provided). -/
def definedScoreCalls : List (String × ℕ) :=
  anubisScoreCalls.filter fun c => (effectiveArity anubisClassBody c.1).isSome

/-! ## Alert system (`AnubisAlertSystem`, lines 861-1023) -/

/-- The fields of the score dictionary that `_should_alert` reads. -/
structure Snapshot where
  anubisScore : ℚ
  riskRating : String
  developerTier : String
  momentumScore : ℚ
deriving DecidableEq

/-- `AnubisAlertSystem._should_alert` (`src/modules/anubis_scoring.py:892-912`):
returns whether to alert and at which level, branches in source order. -/
def should_alert (s : Snapshot) : Bool × Option String :=
  if s.developerTier = "ELITE" then (true, some "CRITICAL")
  else if 80 < s.momentumScore ∧ 60 < s.anubisScore then (true, some "HIGH")
  else if 70 < s.anubisScore then (true, some "STANDARD")
  else if s.riskRating = "EXTREME" then (false, none)
  else (false, none)

/-- A row of the `alerts_log` table written by `_log_alert`. -/
structure AlertRow where
  walletAddress : String
  tokenAddress : String
  alertLevel : String
  anubisScore : ℚ
deriving DecidableEq

/-- `AnubisAlertSystem._log_alert` (`src/modules/anubis_scoring.py:1016-1023`):
an unconditional `INSERT INTO alerts_log`, modelled as appending a row. -/
def log_alert (wallet token level : String) (anubisScore : ℚ)
    (log : List AlertRow) : List AlertRow :=
  log ++ [⟨wallet, token, level, anubisScore⟩]

/-- The `self.scoring_engine.<name>(...)` calls made by
`AnubisAlertSystem._generate_alert_message`
(`src/modules/anubis_scoring.py:914-918`) in execution order:
`_get_wallet_profile` exists on the engine, `calculate_developer_earnings`
is defined nowhere in the repository. -/
def generateMessageCalls : List (String × ℕ) :=
  [("_get_wallet_profile", 1),
   ("calculate_developer_earnings", 1)]

/-- `AnubisAlertSystem.process_new_launch`
(`src/modules/anubis_scoring.py:869-890`) including its error paths, over
the alert log as state. Line 873 first invokes
`scoring_engine.calculate_anubis_score`, whose call sequence raises
(`firstCallError anubisClassBody anubisScoreCalls` is an `AttributeError`,
see C2), aborting the whole method before any insert; the remaining
branches mirror the source for the hypothetical snapshot `snap` that the
scoring call would have produced: the `_should_alert` decision, then — on
the alerting branch — line 879's unconditional `_generate_alert_message`,
which itself raises on the missing `calculate_developer_earnings` before
line 890 can reach `_log_alert`. No check for an existing alert for the
`(wallet, token)` pair exists anywhere on the path. -/
def process_new_launch (snap : Snapshot) (wallet token _platform : String)
    (log : List AlertRow) : Except PyError (List AlertRow) :=
  match firstCallError anubisClassBody anubisScoreCalls with
  | some e => .error e
  | none =>
    match should_alert snap with
    | (true, some lvl) =>
      match firstCallError anubisClassBody generateMessageCalls with
      | some e => .error e
      | none => .ok (log_alert wallet token lvl snap.anubisScore log)
    | _ => .ok log

/-- The number of persisted alert rows for a `(wallet, token)` pair. -/
def countAlerts (wallet token : String) (log : List AlertRow) : ℕ :=
  (log.filter fun r => r.walletAddress == wallet && r.tokenAddress == token).length

/-! ## Scanner-side ingestion and profiles (`src/modules/wallet_scanner.py`) -/

/-- A parsed launch (`launch_info`) as stored by the scanner. -/
structure LaunchInfo where
  mintAddress : String
  creatorWallet : String
  platform : String
  signature : String
  launchTime : ℤ
  initialLiquiditySol : ℚ
deriving DecidableEq

/-- The scanner-side wallet profile columns touched by
`_update_developer_profiles`. -/
structure ProfileRow where
  totalLaunches : ℕ
  avgSeedAmount : ℚ
  firstSeen : ℤ
  lastActive : ℤ
deriving DecidableEq

/-- The database tables touched by the scanner's ingestion path. -/
structure ScannerDB where
  tokenLaunches : List LaunchInfo
  activeMonitoring : List (String × String)
  walletProfiles : List (String × ProfileRow)
deriving DecidableEq

/-- The empty database. -/
def emptyScannerDB : ScannerDB := ⟨[], [], []⟩

/-- `WalletScanner._store_realtime_launch`
(`src/modules/wallet_scanner.py:1083-1112`): `INSERT ... ON CONFLICT
(mint_address) DO NOTHING` into `token_launches`, then an unguarded insert
into `active_monitoring`. -/
def store_realtime_launch (info : LaunchInfo) (db : ScannerDB) : ScannerDB :=
  { db with
    tokenLaunches :=
      if db.tokenLaunches.any (fun l => l.mintAddress == info.mintAddress)
      then db.tokenLaunches
      else db.tokenLaunches ++ [info],
    activeMonitoring := db.activeMonitoring ++ [(info.creatorWallet, info.mintAddress)] }

/-- Minimum of a list of day numbers (`min(...)` over a non-empty generator;
0 for the never-taken empty case). -/
def listMinZ : List ℤ → ℤ
  | [] => 0
  | x :: xs => xs.foldl min x

/-- Maximum of a list of day numbers. -/
def listMaxZ : List ℤ → ℤ
  | [] => 0
  | x :: xs => xs.foldl max x

/-- The `INSERT ... ON CONFLICT (wallet_address) DO UPDATE` of
`_update_developer_profiles`: on conflict, `total_launches` is INCREMENTED
by the batch count while `avg_seed_amount` and `last_active` are replaced;
otherwise a fresh row is inserted. -/
def upsertProfile (ps : List (String × ProfileRow)) (w : String) (total : ℕ)
    (avgLiquidity : ℚ) (firstSeen lastActive : ℤ) : List (String × ProfileRow) :=
  if ps.any (fun p => p.1 == w) then
    ps.map fun p =>
      if p.1 == w then
        (p.1, { p.2 with
                totalLaunches := p.2.totalLaunches + total,
                avgSeedAmount := avgLiquidity,
                lastActive := lastActive })
      else p
  else ps ++ [(w, ⟨total, avgLiquidity, firstSeen, lastActive⟩)]

/-- `WalletScanner._update_developer_profiles`
(`src/modules/wallet_scanner.py:896-934`): group the batch by (truthy)
creator wallet and upsert each profile; no check against already-recorded
mints is made. -/
def update_developer_profiles (launches : List LaunchInfo) (db : ScannerDB) : ScannerDB :=
  let creators :=
    ((launches.filter fun l => l.creatorWallet != "").map fun l => l.creatorWallet).dedup
  { db with
    walletProfiles := creators.foldl (fun ps w =>
      let wls := launches.filter fun l => l.creatorWallet == w
      let total := wls.length
      let avgLiquidity : ℚ := ((wls.map fun l => l.initialLiquiditySol).sum) / (total : ℚ)
      let firstSeen := listMinZ (wls.map fun l => l.launchTime)
      let lastActive := listMaxZ (wls.map fun l => l.launchTime)
      upsertProfile ps w total avgLiquidity firstSeen lastActive) db.walletProfiles }

/-- One ingest-and-profile pass for a single launch event: store it
(`_store_realtime_launch`) and update the creator's profile from the batch
containing it (`_update_developer_profiles`), as the scan pipeline does for
each batch it processes. -/
def ingest_launch (e : LaunchInfo) (db : ScannerDB) : ScannerDB :=
  update_developer_profiles [e] (store_realtime_launch e db)

/-- The `total_launches` recorded for a wallet (0 when no row exists). -/
def getTotalLaunches (db : ScannerDB) (w : String) : ℕ :=
  ((db.walletProfiles.find? fun p => p.1 == w).map fun p => p.2.totalLaunches).getD 0

/-- The simplified score of `WalletScanner.create_developer_profile`
(`src/modules/wallet_scanner.py:248-303`):
`min(100, success_rate * 100 + min(20, total_launches))`. -/
def create_profile_score (totalLaunches successful : ℕ) : ℚ :=
  let successRate : ℚ :=
    if 0 < totalLaunches then (successful : ℚ) / (totalLaunches : ℚ) else 0
  min 100 (successRate * 100 + min 20 (totalLaunches : ℚ))

/-- The tier assignment of `WalletScanner.create_developer_profile`
(`src/modules/wallet_scanner.py:270-278`): thresholds 80/60/40, tested with
`>=`, and no successful-launches or sophistication condition. -/
def create_profile_tier (score : ℚ) : String :=
  if 80 ≤ score then "ELITE"
  else if 60 ≤ score then "PRO"
  else if 40 ≤ score then "AMATEUR"
  else "SCAMMER"

/-- Modelled from the spec (§4.2): the developer-tier rule as the spec
states it — ELITE exactly when `anubis_score > 80` AND
`successful_launches > 5` AND a sophistication signal is present; otherwise
PRO when `> 60`, AMATEUR when `> 40`, else SCAMMER. Used only to compare the
code paths against the spec's wording. -/
def specDeveloperTier (anubisScore : ℚ) (successful : ℕ)
    (sophisticationSignal : Prop) [Decidable sophisticationSignal] : String :=
  if 80 < anubisScore ∧ 5 < successful ∧ sophisticationSignal then "ELITE"
  else if 60 < anubisScore then "PRO"
  else if 40 < anubisScore then "AMATEUR"
  else "SCAMMER"

/-! ## Sample inputs used by concrete theorems -/

/-- A wallet-profile row holding no launch data. -/
def noDataProfile : Profile := ⟨0, 0, 0, none, 0⟩

/-- The velocity dictionary `_calculate_velocity_metrics` returns for a
wallet with fewer than 2 launches in the 90-day window. -/
def noDataVelocity : Velocity := ⟨"selective", 0, 0, none⟩

/-- The component scores of a wallet with no launch data: empty time
patterns, fewer than 2 launches in the window, no network edges, no 7-day
activity, and no liquidity/bonding/sophistication signals, each fed through
the corresponding scoring function. -/
def noDataComponents : ComponentScores where
  successScore := calculate_success_score (some noDataProfile)
  scamScore := calculate_scam_score_simple (some noDataProfile) noDataVelocity
  timePatternScore := calculate_time_pattern_score none
  velocityScore := calculate_velocity_score noDataVelocity
  networkScore := calculate_network_score ⟨0, 0, false⟩
  momentumScore := calculate_momentum_score ⟨0, 0⟩
  liquidityScore := calculate_liquidity_score none
  bondingScore := calculate_bonding_score none
  sophisticationScore := calculate_sophistication_score ⟨false, false⟩ ⟨0⟩ ⟨0, 0⟩

/-- A sample launch event. -/
def sampleLaunch : LaunchInfo := ⟨"Mint1", "Wallet1", "pump_fun", "Sig1", 0, 1⟩

/-- A score snapshot of an ELITE-tier wallet (crosses the CRITICAL alert
threshold). -/
def eliteSnapshot : Snapshot := ⟨90, "LOW", "ELITE", 0⟩

/-! ## Helper facts about the velocity-type strings -/

theorem selective_ne_spammer : ("selective" : String) ≠ "serial_spammer" := by decide

theorem selective_ne_high : ("selective" : String) ≠ "high_frequency" := by decide

theorem selective_ne_moderate : ("selective" : String) ≠ "moderate" := by decide

/-! ## Theorems for the claims -/

/-- C1: the claim says the feature-rich four-parameter variant of
`_calculate_scam_score` is the one in effect. In the class body the later,
simpler two-parameter definition replaces it (`effectiveArity` is 2), and at
a profile with one launch and one rug the two variants disagree: the
in-effect simple variant scores `rug_rate * 40 = 40` while the canonical
rich formula of the claim scores `rug_rate * 30 = 30`. -/
theorem scam_score_shadowed_c1 :
    effectiveArity anubisClassBody "_calculate_scam_score" = some 2
  ∧ calculate_scam_score_simple (some ⟨1, 1, 0, none, 0⟩) ⟨"selective", 0, 0, none⟩ = 40
  ∧ calculate_scam_score_rich (some ⟨1, 1, 0, none, 0⟩) ⟨"selective", 0, 0, none⟩
      none none = 30 := by
  refine ⟨by decide, ?_, ?_⟩
  · simp only [calculate_scam_score_simple, qTruthy]
    norm_num [selective_ne_spammer]
  · simp only [calculate_scam_score_rich, qTruthy]
    norm_num [selective_ne_spammer]

/-- C2 counterexample: the claim says `calculate_anubis_score` raises a
`TypeError` before producing a result. In fact the first failure of its call
sequence is an `AttributeError` on the nowhere-defined
`analyze_liquidity_patterns` (line 222), reached before either four-argument
call — so the exception raised is not a `TypeError`. -/
theorem anubis_score_first_error_c2 :
    firstCallError anubisClassBody anubisScoreCalls
      = some (PyError.attributeError "analyze_liquidity_patterns")
  ∧ (firstCallError anubisClassBody anubisScoreCalls).map PyError.isTypeError
      = some false := by decide

/-- C2 amended: for every wallet, `calculate_anubis_score` raises an
exception before producing a result: the first failure is an
`AttributeError` on the missing `analyze_liquidity_patterns`; moreover the
later two-parameter definitions of `_calculate_scam_score` and
`_determine_developer_tier` do replace the earlier four-parameter ones while
the method is invoked with four arguments for each, so the call sequence
restricted to methods that do exist still fails, with a `TypeError` at
`_calculate_scam_score`. -/
theorem anubis_score_never_returns_c2 :
    (firstCallError anubisClassBody anubisScoreCalls).isSome = true
  ∧ firstCallError anubisClassBody anubisScoreCalls
      = some (PyError.attributeError "analyze_liquidity_patterns")
  ∧ effectiveArity anubisClassBody "_calculate_scam_score" = some 2
  ∧ effectiveArity anubisClassBody "_determine_developer_tier" = some 2
  ∧ ("_calculate_scam_score", 4) ∈ anubisScoreCalls
  ∧ ("_determine_developer_tier", 4) ∈ anubisScoreCalls
  ∧ firstCallError anubisClassBody definedScoreCalls
      = some (PyError.typeError "_calculate_scam_score") := by decide

/-- C3 counterexample: a snapshot with risk rating EXTREME and composite
score 71 (> 70) IS alerted, at level STANDARD — the `anubis_score > 70`
branch of `_should_alert` fires before the EXTREME check. -/
theorem extreme_risk_alerted_c3 :
    should_alert ⟨71, "EXTREME", "PRO", 0⟩ = (true, some "STANDARD") := by
  simp only [should_alert]
  norm_num [show ("PRO" : String) ≠ "ELITE" from by decide]

/-- C3 amended: the EXTREME branch of `_should_alert` is unreachable with
a distinct effect — the decision is entirely independent of the risk
rating, and an alert is emitted exactly when the tier is ELITE, or the
momentum component exceeds 80 with composite above 60, or the composite
exceeds 70 (EXTREME risk suppresses nothing). -/
theorem should_alert_ignores_risk_c3 (a m : ℚ) (tier r r' : String) :
    should_alert ⟨a, r, tier, m⟩ = should_alert ⟨a, r', tier, m⟩
  ∧ ((should_alert ⟨a, r, tier, m⟩).1 = true
      ↔ tier = "ELITE" ∨ (80 < m ∧ 60 < a) ∨ 70 < a) := by
  unfold should_alert
  constructor
  · split_ifs <;> rfl
  · split_ifs with h1 h2 h3 h4 <;> simp_all

/-- C4 counterexample: processing a launch whose snapshot crosses the
CRITICAL threshold persists NO alert record at all — `process_new_launch`
aborts with an `AttributeError` (the scoring call's missing
`analyze_liquidity_patterns`) before any insert, so "exactly one alert
record" is false, and no existing-alert consultation ever takes place. -/
theorem alert_never_persisted_c4 :
    (should_alert eliteSnapshot).1 = true
  ∧ process_new_launch eliteSnapshot "Wallet1" "Mint1" "pump_fun" []
      = Except.error (PyError.attributeError "analyze_liquidity_patterns") :=
  ⟨rfl, rfl⟩

/-- C4 amended: the alert path has no duplicate suppression and, as
written, can persist nothing: for every snapshot and prior log,
`process_new_launch` aborts with the scoring call's `AttributeError`
before any insert; even granted a score snapshot, the alerting branch's
unconditional `_generate_alert_message` raises an `AttributeError` on the
missing `calculate_developer_earnings` before `_log_alert` is reached; and
`_log_alert` itself, were it reached, appends a fresh row for the pair
unconditionally — it never consults the log for an existing alert. So the
same `(wallet, mint)` processed twice persists zero records, not one. -/
theorem alert_path_no_dedup_c4 (snap : Snapshot) (w t pl : String) (log : List AlertRow) :
    process_new_launch snap w t pl log
      = Except.error (PyError.attributeError "analyze_liquidity_patterns")
  ∧ firstCallError anubisClassBody generateMessageCalls
      = some (PyError.attributeError "calculate_developer_earnings")
  ∧ (∀ (lvl : String) (sc : ℚ),
      countAlerts w t (log_alert w t lvl sc log) = countAlerts w t log + 1) := by
  refine ⟨rfl, by decide, ?_⟩
  intro lvl sc
  simp [log_alert, countAlerts, List.filter_append]

/-- C5 counterexample: ingesting the same launch event (same `mint_address`)
a second time does NOT leave the `WalletProfile` identical — the profile
table after two passes differs from the table after one, because
`_update_developer_profiles` increments `total_launches` by the batch count
unconditionally (2 after two passes vs 1 after one). -/
theorem duplicate_ingest_not_idempotent_c5 :
    (ingest_launch sampleLaunch (ingest_launch sampleLaunch emptyScannerDB)).walletProfiles
      ≠ (ingest_launch sampleLaunch emptyScannerDB).walletProfiles
  ∧ getTotalLaunches
      (ingest_launch sampleLaunch (ingest_launch sampleLaunch emptyScannerDB)) "Wallet1" = 2
  ∧ getTotalLaunches (ingest_launch sampleLaunch emptyScannerDB) "Wallet1" = 1 := by
  decide

/-- C5 amended: only the `token_launches` insert is idempotent on
`mint_address` (its `ON CONFLICT DO NOTHING` makes a repeated store a no-op
on that table, for every event and every prior state), while the
profile-update path adds the batch's launch count unconditionally, so
re-ingesting an already recorded event double counts the profile's
`total_launches`. -/
theorem ingest_token_idempotent_profile_doubled_c5 :
    (∀ (e : LaunchInfo) (db : ScannerDB),
        (store_realtime_launch e (store_realtime_launch e db)).tokenLaunches
          = (store_realtime_launch e db).tokenLaunches)
  ∧ getTotalLaunches
      (ingest_launch sampleLaunch (ingest_launch sampleLaunch emptyScannerDB)) "Wallet1" = 2
  ∧ getTotalLaunches (ingest_launch sampleLaunch emptyScannerDB) "Wallet1" = 1 := by
  refine ⟨?_, by decide, by decide⟩
  intro e db
  simp only [store_realtime_launch]
  by_cases h : db.tokenLaunches.any (fun l => l.mintAddress == e.mintAddress)
  · simp [h]
  · simp [h, List.any_append]

/-- C6 counterexample: for a wallet with no launch data the composite score
is not 50. -/
theorem no_data_composite_not_fifty_c6 :
    calculate_composite_score noDataComponents ≠ 50 := by
  simp only [calculate_composite_score, noDataComponents, calculate_success_score,
    calculate_scam_score_simple, calculate_time_pattern_score, calculate_velocity_score,
    calculate_network_score, calculate_momentum_score, noDataProfile, noDataVelocity, qTruthy]
  norm_num [selective_ne_spammer, selective_ne_high, selective_ne_moderate]

/-- C6 amended: for a wallet with no launch data the component scores are
success 0, scam 0, time-pattern 50, velocity 90 (SELECTIVE), network 90,
momentum 0, and the normalized composite equals 335/6 = 55.8333…, not 50
(the inverse-scam term contributes (100-0)·0.15 and the weight total is
0.6). -/
theorem no_data_composite_value_c6 :
    calculate_success_score (some noDataProfile) = 0
  ∧ calculate_scam_score_simple (some noDataProfile) noDataVelocity = 0
  ∧ calculate_time_pattern_score none = 50
  ∧ calculate_velocity_score noDataVelocity = 90
  ∧ calculate_network_score ⟨0, 0, false⟩ = 90
  ∧ calculate_momentum_score ⟨0, 0⟩ = 0
  ∧ calculate_composite_score noDataComponents = 335/6 := by
  refine ⟨by norm_num [calculate_success_score, noDataProfile], ?_,
    by norm_num [calculate_time_pattern_score], ?_,
    by norm_num [calculate_network_score], by norm_num [calculate_momentum_score], ?_⟩
  · simp only [calculate_scam_score_simple, noDataProfile, noDataVelocity, qTruthy]
    norm_num [selective_ne_spammer]
  · simp only [calculate_velocity_score, noDataVelocity]
    norm_num [selective_ne_spammer, selective_ne_high, selective_ne_moderate]
  · simp only [calculate_composite_score, noDataComponents, calculate_success_score,
      calculate_scam_score_simple, calculate_time_pattern_score, calculate_velocity_score,
      calculate_network_score, calculate_momentum_score, noDataProfile, noDataVelocity, qTruthy]
    norm_num [selective_ne_spammer, selective_ne_high, selective_ne_moderate]

/-- C7 counterexample: not every tier-assigning code path obeys the spec's
three-conjunct rule. The scanner's simplified path
(`create_developer_profile`) classifies a wallet with 10 launches and 7
successes (score exactly 80) as ELITE, where the claimed rule — even with a
sophistication signal granted — yields PRO (80 is not > 80); and the
effective engine method classifies score 85 with 6 successes as ELITE with
no sophistication signal at all, where the claimed rule yields PRO. -/
theorem tier_paths_violate_spec_rule_c7 :
    create_profile_score 10 7 = 80
  ∧ create_profile_tier (create_profile_score 10 7) = "ELITE"
  ∧ specDeveloperTier 80 7 True = "PRO"
  ∧ determine_developer_tier_simple 85 (some ⟨10, 0, 6, none, 0⟩) = "ELITE"
  ∧ specDeveloperTier 85 6 False = "PRO" := by
  have h : create_profile_score 10 7 = 80 := by
    norm_num [create_profile_score]
  refine ⟨h, ?_, ?_, ?_, ?_⟩
  · rw [h]; norm_num [create_profile_tier]
  · norm_num [specDeveloperTier]
  · norm_num [determine_developer_tier_simple]
  · norm_num [specDeveloperTier]

/-- C7 amended: the spec's three-conjunct rule matches only the earlier,
shadowed four-parameter `_determine_developer_tier` (whose sophistication
signal is Jito usage or more than 2 successful graduations). The effective
(later) engine method equals the spec rule with the sophistication conjunct
forced true — ELITE on score > 80 and successes > 5 alone — and the
scanner's simplified path grants ELITE exactly when its score reaches 80
(a `>=` test, with no successful-launches or sophistication condition). -/
theorem developer_tier_paths_c7 (a : ℚ) (p : Option Profile) (j : Jito) (m : Migrations) :
    determine_developer_tier_rich a p j m
      = specDeveloperTier a ((p.map Profile.successfulLaunches).getD 0)
          (j.usesJito = true ∨ 2 < m.successfulGraduations)
  ∧ determine_developer_tier_simple a p
      = specDeveloperTier a ((p.map Profile.successfulLaunches).getD 0) True
  ∧ (∀ s : ℚ, create_profile_tier s = "ELITE" ↔ 80 ≤ s) := by
  refine ⟨?_, ?_, ?_⟩
  · unfold determine_developer_tier_rich specDeveloperTier
    split_ifs <;> tauto
  · unfold determine_developer_tier_simple specDeveloperTier
    split_ifs <;> tauto
  · intro s
    unfold create_profile_tier
    split_ifs with h1 h2 h3
    · exact iff_of_true rfl h1
    · exact iff_of_false (by decide) h1
    · exact iff_of_false (by decide) h1
    · exact iff_of_false (by decide) h1

/-- C10 counterexample: a wallet whose launches are concentrated 0.7 in the
EU session (Asia and US shares 0) scores 50 — it does NOT receive the +15
session-concentration bonus the claim promises (which would give 65). -/
theorem eu_concentration_no_bonus_c10 :
    calculate_time_pattern_score (some ⟨0, 7/10, 0, 0, 0⟩) = 50
  ∧ calculate_time_pattern_score (some ⟨0, 7/10, 0, 0, 0⟩) ≠ 65 := by
  norm_num [calculate_time_pattern_score]

/-- C10 amended: the +15 session-concentration bonus tests only the Asia
and US session shares; the EU session ratio has no influence whatsoever on
the time-pattern score (the score is invariant under changing it), while
Asia- or US-concentrated wallets (share 0.7) do receive the bonus. -/
theorem time_pattern_eu_ignored_c10 (a e e' u w c : ℚ) :
    calculate_time_pattern_score (some ⟨a, e, u, w, c⟩)
      = calculate_time_pattern_score (some ⟨a, e', u, w, c⟩)
  ∧ calculate_time_pattern_score (some ⟨7/10, 0, 0, 0, 0⟩) = 65
  ∧ calculate_time_pattern_score (some ⟨0, 0, 7/10, 0, 0⟩) = 65 := by
  refine ⟨rfl, ?_, ?_⟩ <;> norm_num [calculate_time_pattern_score]

/-- C9: the 90-day velocity classification, with branches in exactly the
source order — SELECTIVE whenever fewer than 2 launches are in the window;
otherwise SERIAL_SPAMMER iff `max_daily > 5`; else HIGH_FREQUENCY iff
`avg_daily > 2`; else MODERATE iff `avg_daily > 0.5`; else SELECTIVE. -/
theorem velocity_classification_c9 (days : List ℤ) :
    (calculate_velocity_type days = "serial_spammer"
      ↔ 2 ≤ days.length ∧ 5 < maxDailyLaunches days)
  ∧ (calculate_velocity_type days = "high_frequency"
      ↔ 2 ≤ days.length ∧ maxDailyLaunches days ≤ 5 ∧ 2 < avgDailyLaunches days)
  ∧ (calculate_velocity_type days = "moderate"
      ↔ 2 ≤ days.length ∧ maxDailyLaunches days ≤ 5
        ∧ avgDailyLaunches days ≤ 2 ∧ 1/2 < avgDailyLaunches days)
  ∧ (calculate_velocity_type days = "selective"
      ↔ days.length < 2
        ∨ (maxDailyLaunches days ≤ 5 ∧ avgDailyLaunches days ≤ 1/2)) := by
  unfold calculate_velocity_type
  split_ifs with h1 h2 h3 h4
  · refine ⟨?_, ?_, ?_, ?_⟩
    · exact iff_of_false (by decide) fun hF => absurd hF.1 (by omega)
    · exact iff_of_false (by decide) fun hF => absurd hF.1 (by omega)
    · exact iff_of_false (by decide) fun hF => absurd hF.1 (by omega)
    · exact iff_of_true rfl (Or.inl h1)
  · refine ⟨?_, ?_, ?_, ?_⟩
    · exact iff_of_true rfl ⟨by omega, h2⟩
    · exact iff_of_false (by decide) fun hF => absurd hF.2.1 (by omega)
    · exact iff_of_false (by decide) fun hF => absurd hF.2.1 (by omega)
    · exact iff_of_false (by decide) fun hF =>
        hF.elim (fun h => absurd h h1) (fun h => absurd h.1 (by omega))
  · refine ⟨?_, ?_, ?_, ?_⟩
    · exact iff_of_false (by decide) fun hF => absurd hF.2 h2
    · exact iff_of_true rfl ⟨by omega, by omega, h3⟩
    · exact iff_of_false (by decide) fun hF => absurd h3 (not_lt.mpr hF.2.2.1)
    · exact iff_of_false (by decide) fun hF =>
        hF.elim (fun h => absurd h h1)
          (fun h => absurd h3 (not_lt.mpr (le_trans h.2 (by norm_num))))
  · refine ⟨?_, ?_, ?_, ?_⟩
    · exact iff_of_false (by decide) fun hF => absurd hF.2 h2
    · exact iff_of_false (by decide) fun hF => absurd hF.2.2 h3
    · exact iff_of_true rfl ⟨by omega, by omega, not_lt.mp h3, h4⟩
    · exact iff_of_false (by decide) fun hF =>
        hF.elim (fun h => absurd h h1) (fun h => absurd h4 (not_lt.mpr h.2))
  · refine ⟨?_, ?_, ?_, ?_⟩
    · exact iff_of_false (by decide) fun hF => absurd hF.2 h2
    · exact iff_of_false (by decide) fun hF => absurd hF.2.2 h3
    · exact iff_of_false (by decide) fun hF => absurd hF.2.2.2 h4
    · exact iff_of_true rfl (Or.inr ⟨not_lt.mp h2, not_lt.mp h4⟩)

/-! ## Boundedness lemmas for the component scores (claim C8) -/

theorem success_score_bounds (p : Profile) (h₁ : p.successfulLaunches ≤ p.totalLaunches)
    (h₂ : 0 ≤ p.successRate7d) (h₃ : p.successRate7d ≤ 1) :
    0 ≤ calculate_success_score (some p) ∧ calculate_success_score (some p) ≤ 100 := by
  rcases Nat.eq_zero_or_pos p.totalLaunches with h0 | h0
  · norm_num [calculate_success_score, h0]
  · have hT : (0:ℚ) < (p.totalLaunches : ℚ) := by exact_mod_cast h0
    have hr0 : (0:ℚ) ≤ (p.successfulLaunches : ℚ) / (p.totalLaunches : ℚ) :=
      div_nonneg (by positivity) hT.le
    have hr1 : (p.successfulLaunches : ℚ) / (p.totalLaunches : ℚ) ≤ 1 := by
      rw [div_le_one hT]; exact_mod_cast h₁
    simp only [calculate_success_score]
    rw [if_neg (Nat.pos_iff_ne_zero.mp h0)]
    split_ifs <;>
      constructor <;>
      first
        | exact le_min (by nlinarith) (by norm_num)
        | exact min_le_right _ _
        | nlinarith

theorem momentum_score_bounds (r : Recent) (h : r.successes7d ≤ r.launches7d) :
    0 ≤ calculate_momentum_score r ∧ calculate_momentum_score r ≤ 100 := by
  rcases Nat.eq_zero_or_pos r.launches7d with h0 | h0
  · norm_num [calculate_momentum_score, h0]
  · have hT : (0:ℚ) < (r.launches7d : ℚ) := by exact_mod_cast h0
    have hs0 : (0:ℚ) ≤ (r.successes7d : ℚ) / (r.launches7d : ℚ) :=
      div_nonneg (by positivity) hT.le
    have hs1 : (r.successes7d : ℚ) / (r.launches7d : ℚ) ≤ 1 := by
      rw [div_le_one hT]; exact_mod_cast h
    simp only [calculate_momentum_score]
    rw [if_neg (Nat.pos_iff_ne_zero.mp h0)]
    split_ifs <;> constructor <;> nlinarith

theorem scam_score_simple_bounds (p : Option Profile) (v : Velocity) :
    0 ≤ calculate_scam_score_simple p v ∧ calculate_scam_score_simple p v ≤ 100 := by
  rcases p with _ | p
  · norm_num [calculate_scam_score_simple]
  · simp only [calculate_scam_score_simple]
    refine ⟨le_min ?_ (by norm_num), min_le_right _ _⟩
    split_ifs <;> positivity

theorem scam_score_rich_bounds (p : Option Profile) (v : Velocity)
    (liq : Option Liquidity) (bond : Option Bonding) :
    0 ≤ calculate_scam_score_rich p v liq bond
  ∧ calculate_scam_score_rich p v liq bond ≤ 100 := by
  rcases p with _ | p
  · norm_num [calculate_scam_score_rich]
  · simp only [calculate_scam_score_rich]
    refine ⟨le_min ?_ (by norm_num), min_le_right _ _⟩
    split_ifs <;> positivity

theorem time_pattern_score_bounds (tp : Option TimePatterns) :
    0 ≤ calculate_time_pattern_score tp ∧ calculate_time_pattern_score tp ≤ 100 := by
  rcases tp with _ | p
  · norm_num [calculate_time_pattern_score]
  · simp only [calculate_time_pattern_score]
    exact ⟨le_max_left _ _, max_le (by norm_num) (min_le_right _ _)⟩

theorem velocity_score_bounds (v : Velocity) :
    0 ≤ calculate_velocity_score v ∧ calculate_velocity_score v ≤ 100 := by
  unfold calculate_velocity_score
  split_ifs <;> norm_num

theorem network_score_bounds (n : Network) :
    0 ≤ calculate_network_score n ∧ calculate_network_score n ≤ 100 := by
  simp only [calculate_network_score]
  split_ifs <;>
    first
      | norm_num
      | exact ⟨le_max_left _ _, max_le (by norm_num) (min_le_right _ _)⟩

theorem liquidity_score_bounds (liq : Option Liquidity) :
    0 ≤ calculate_liquidity_score liq ∧ calculate_liquidity_score liq ≤ 100 := by
  rcases liq with _ | l
  · norm_num [calculate_liquidity_score]
  · simp only [calculate_liquidity_score]
    split_ifs <;> norm_num

theorem bonding_score_bounds (bond : Option Bonding) :
    0 ≤ calculate_bonding_score bond ∧ calculate_bonding_score bond ≤ 100 := by
  rcases bond with _ | b
  · norm_num [calculate_bonding_score]
  · simp only [calculate_bonding_score]
    split_ifs <;>
      first
        | norm_num
        | exact ⟨le_max_left _ _, max_le (by norm_num) (min_le_right _ _)⟩

theorem sophistication_score_bounds (j : Jito) (md : MetadataQuality) (mig : Migrations)
    (h : 0 ≤ md.metadataScore) :
    0 ≤ calculate_sophistication_score j md mig
  ∧ calculate_sophistication_score j md mig ≤ 100 := by
  simp only [calculate_sophistication_score]
  refine ⟨le_min ?_ (by norm_num), min_le_right _ _⟩
  split_ifs <;> nlinarith

theorem composite_score_bounds (s : ComponentScores)
    (h₁ : 0 ≤ s.successScore) (h₂ : s.successScore ≤ 100)
    (h₃ : 0 ≤ s.scamScore) (h₄ : s.scamScore ≤ 100)
    (h₅ : 0 ≤ s.timePatternScore) (h₆ : s.timePatternScore ≤ 100)
    (h₇ : 0 ≤ s.velocityScore) (h₈ : s.velocityScore ≤ 100)
    (h₉ : 0 ≤ s.networkScore) (h₁₀ : s.networkScore ≤ 100)
    (h₁₁ : 0 ≤ s.momentumScore) (h₁₂ : s.momentumScore ≤ 100) :
    0 ≤ calculate_composite_score s ∧ calculate_composite_score s ≤ 100 := by
  simp only [calculate_composite_score]
  rw [if_pos (by norm_num : (0:ℚ) < 15/100 + 15/100 + 10/100 + 10/100 + 5/100 + 5/100)]
  constructor
  · refine div_nonneg ?_ (by norm_num)
    linarith
  · rw [div_le_iff₀ (by norm_num)]
    linarith

theorem alert_priority_bounds (a : ℚ) (cs : ComponentScores) :
    1 ≤ calculate_alert_priority a cs ∧ calculate_alert_priority a cs ≤ 10 := by
  unfold calculate_alert_priority
  split_ifs <;> norm_num

/-- C8 counterexample: over truly arbitrary non-negative counts the claim
fails — a profile with `successful_launches = 5 > total_launches = 1` (both
non-negative counts) makes the success score 350, far outside [0,100]; the
code never clamps the success rate. -/
theorem success_score_unbounded_c8 :
    calculate_success_score (some ⟨1, 0, 5, none, 0⟩) = 350
  ∧ ¬ calculate_success_score (some ⟨1, 0, 5, none, 0⟩) ≤ 100 := by
  have h : calculate_success_score (some ⟨1, 0, 5, none, 0⟩) = 350 := by
    norm_num [calculate_success_score]
  exact ⟨h, by rw [h]; norm_num⟩

/-- C8 amended: for every profile that is internally consistent
(`successful_launches ≤ total_launches`, the stored 7-day success rate in
[0,1], 7-day successes at most 7-day launches, non-negative metadata
quality), every component score — success, scam (both variants), time
pattern, velocity, network, momentum, liquidity, bonding, sophistication —
lies in [0,100], the normalized composite of those components lies in
[0,100], and for all inputs the alert priority lies in [1,10]. -/
theorem scores_bounded_c8 (p : Profile) (v : Velocity) (tp : Option TimePatterns)
    (net : Network) (rec : Recent) (liq : Option Liquidity) (bond : Option Bonding)
    (j : Jito) (md : MetadataQuality) (mig : Migrations)
    (h₁ : p.successfulLaunches ≤ p.totalLaunches)
    (h₂ : 0 ≤ p.successRate7d) (h₃ : p.successRate7d ≤ 1)
    (h₄ : rec.successes7d ≤ rec.launches7d)
    (h₅ : 0 ≤ md.metadataScore) :
    (0 ≤ calculate_success_score (some p) ∧ calculate_success_score (some p) ≤ 100)
  ∧ (0 ≤ calculate_scam_score_simple (some p) v
      ∧ calculate_scam_score_simple (some p) v ≤ 100)
  ∧ (0 ≤ calculate_scam_score_rich (some p) v liq bond
      ∧ calculate_scam_score_rich (some p) v liq bond ≤ 100)
  ∧ (0 ≤ calculate_time_pattern_score tp ∧ calculate_time_pattern_score tp ≤ 100)
  ∧ (0 ≤ calculate_velocity_score v ∧ calculate_velocity_score v ≤ 100)
  ∧ (0 ≤ calculate_network_score net ∧ calculate_network_score net ≤ 100)
  ∧ (0 ≤ calculate_momentum_score rec ∧ calculate_momentum_score rec ≤ 100)
  ∧ (0 ≤ calculate_liquidity_score liq ∧ calculate_liquidity_score liq ≤ 100)
  ∧ (0 ≤ calculate_bonding_score bond ∧ calculate_bonding_score bond ≤ 100)
  ∧ (0 ≤ calculate_sophistication_score j md mig
      ∧ calculate_sophistication_score j md mig ≤ 100)
  ∧ (0 ≤ calculate_composite_score
        ⟨calculate_success_score (some p), calculate_scam_score_simple (some p) v,
         calculate_time_pattern_score tp, calculate_velocity_score v,
         calculate_network_score net, calculate_momentum_score rec,
         calculate_liquidity_score liq, calculate_bonding_score bond,
         calculate_sophistication_score j md mig⟩
      ∧ calculate_composite_score
        ⟨calculate_success_score (some p), calculate_scam_score_simple (some p) v,
         calculate_time_pattern_score tp, calculate_velocity_score v,
         calculate_network_score net, calculate_momentum_score rec,
         calculate_liquidity_score liq, calculate_bonding_score bond,
         calculate_sophistication_score j md mig⟩ ≤ 100)
  ∧ (∀ (a : ℚ) (cs : ComponentScores),
      1 ≤ calculate_alert_priority a cs ∧ calculate_alert_priority a cs ≤ 10) := by
  have hS := success_score_bounds p h₁ h₂ h₃
  have hSc := scam_score_simple_bounds (some p) v
  have hScR := scam_score_rich_bounds (some p) v liq bond
  have hTp := time_pattern_score_bounds tp
  have hV := velocity_score_bounds v
  have hN := network_score_bounds net
  have hM := momentum_score_bounds rec h₄
  have hL := liquidity_score_bounds liq
  have hB := bonding_score_bounds bond
  have hSo := sophistication_score_bounds j md mig h₅
  refine ⟨hS, hSc, hScR, hTp, hV, hN, hM, hL, hB, hSo, ?_, alert_priority_bounds⟩
  exact composite_score_bounds _ hS.1 hS.2 hSc.1 hSc.2 hTp.1 hTp.2 hV.1 hV.2
    hN.1 hN.2 hM.1 hM.2

/-- Witness for the amended C8 theorem at the no-data wallet: the
hypotheses hold there and the conclusion follows by applying the theorem. -/
theorem scores_bounded_c8_witness :
    (noDataProfile.successfulLaunches ≤ noDataProfile.totalLaunches
      ∧ 0 ≤ noDataProfile.successRate7d ∧ noDataProfile.successRate7d ≤ 1
      ∧ (Recent.mk 0 0).successes7d ≤ (Recent.mk 0 0).launches7d
      ∧ 0 ≤ (MetadataQuality.mk 0).metadataScore)
  ∧ ((0 ≤ calculate_success_score (some noDataProfile)
      ∧ calculate_success_score (some noDataProfile) ≤ 100)
  ∧ (0 ≤ calculate_scam_score_simple (some noDataProfile) noDataVelocity
      ∧ calculate_scam_score_simple (some noDataProfile) noDataVelocity ≤ 100)
  ∧ (0 ≤ calculate_scam_score_rich (some noDataProfile) noDataVelocity none none
      ∧ calculate_scam_score_rich (some noDataProfile) noDataVelocity none none ≤ 100)
  ∧ (0 ≤ calculate_time_pattern_score none ∧ calculate_time_pattern_score none ≤ 100)
  ∧ (0 ≤ calculate_velocity_score noDataVelocity
      ∧ calculate_velocity_score noDataVelocity ≤ 100)
  ∧ (0 ≤ calculate_network_score ⟨0, 0, false⟩
      ∧ calculate_network_score ⟨0, 0, false⟩ ≤ 100)
  ∧ (0 ≤ calculate_momentum_score ⟨0, 0⟩ ∧ calculate_momentum_score ⟨0, 0⟩ ≤ 100)
  ∧ (0 ≤ calculate_liquidity_score none ∧ calculate_liquidity_score none ≤ 100)
  ∧ (0 ≤ calculate_bonding_score none ∧ calculate_bonding_score none ≤ 100)
  ∧ (0 ≤ calculate_sophistication_score ⟨false, false⟩ ⟨0⟩ ⟨0, 0⟩
      ∧ calculate_sophistication_score ⟨false, false⟩ ⟨0⟩ ⟨0, 0⟩ ≤ 100)
  ∧ (0 ≤ calculate_composite_score
        ⟨calculate_success_score (some noDataProfile),
         calculate_scam_score_simple (some noDataProfile) noDataVelocity,
         calculate_time_pattern_score none, calculate_velocity_score noDataVelocity,
         calculate_network_score ⟨0, 0, false⟩, calculate_momentum_score ⟨0, 0⟩,
         calculate_liquidity_score none, calculate_bonding_score none,
         calculate_sophistication_score ⟨false, false⟩ ⟨0⟩ ⟨0, 0⟩⟩
      ∧ calculate_composite_score
        ⟨calculate_success_score (some noDataProfile),
         calculate_scam_score_simple (some noDataProfile) noDataVelocity,
         calculate_time_pattern_score none, calculate_velocity_score noDataVelocity,
         calculate_network_score ⟨0, 0, false⟩, calculate_momentum_score ⟨0, 0⟩,
         calculate_liquidity_score none, calculate_bonding_score none,
         calculate_sophistication_score ⟨false, false⟩ ⟨0⟩ ⟨0, 0⟩⟩ ≤ 100)
  ∧ (∀ (a : ℚ) (cs : ComponentScores),
      1 ≤ calculate_alert_priority a cs ∧ calculate_alert_priority a cs ≤ 10)) :=
  ⟨⟨by norm_num [noDataProfile], by norm_num [noDataProfile],
    by norm_num [noDataProfile], by norm_num, by norm_num⟩,
   scores_bounded_c8 noDataProfile noDataVelocity none ⟨0, 0, false⟩ ⟨0, 0⟩
     none none ⟨false, false⟩ ⟨0⟩ ⟨0, 0⟩
     (by norm_num [noDataProfile]) (by norm_num [noDataProfile])
     (by norm_num [noDataProfile]) (by norm_num) (by norm_num)⟩

end Anubis
